import Mathlib

/-!
Verification of the bandwidth client library (index.js and response.js):
a shallow embedding of the client methods, the response wrapper types and
their accessors, the pagination iterator and the allocate workflow,
followed by theorems about the embedded definitions.

JavaScript dynamic values are modelled by the inductive type JSVal below.
The XML parser collaborator (xml-js, function xml2js with the compact
option) is not part of this repository; definitions that depend on the
parsed structure take the parser as an explicit function parameter or take
the already-parsed body as input.
-/

namespace Bandwidth

/-- Model of a JavaScript value as produced by xml-js parsing and handled
by the library code: null, undefined, strings, integer numbers, arrays
and plain objects (association lists of fields, first binding wins).
Floating point and booleans do not occur in the code paths under
study and are omitted. -/
inductive JSVal where
  | vnull : JSVal
  | vundef : JSVal
  | vstr : String → JSVal
  | vnum : Int → JSVal
  | varr : List JSVal → JSVal
  | vobj : List (String × JSVal) → JSVal

instance : Inhabited JSVal := ⟨JSVal.vnull⟩

namespace JSVal

/-- JavaScript truthiness restricted to the value forms of JSVal: null,
undefined and the empty string are falsy; arrays and objects are always
truthy. -/
def truthy : JSVal → Bool
  | vnull => false
  | vundef => false
  | vstr s => !(s = "")
  | vnum n => !(n = 0)
  | varr _ => true
  | vobj _ => true

/-- Property read on an object, total: a missing field, or a read on a
primitive base (string, array without the special fields the code uses),
yields undefined, matching JavaScript property access on a non-nullish
base. -/
def objGet : JSVal → String → JSVal
  | vobj fields, k =>
      match fields.find? (fun p => p.1 = k) with
      | some p => p.2
      | none => vundef
  | _, _ => vundef

/-- Property read with the JavaScript TypeError on a nullish base: reading
a property of null or undefined throws, modelled as none. -/
def jsGet : JSVal → String → Option JSVal
  | vnull, _ => none
  | vundef, _ => none
  | v, k => some (objGet v k)

/-- Chained property read, propagating the nullish-base TypeError. -/
def jsGetPath (v : JSVal) : List String → Option JSVal
  | [] => some v
  | k :: ks => do jsGetPath (← jsGet v k) ks

mutual

/-- JavaScript string coercion for the value forms of JSVal, as used by
template literals in the code; an array joins the coercions of its
elements with commas. -/
def jsToString : JSVal → String
  | vnull => "null"
  | vundef => "undefined"
  | vstr s => s
  | vnum n => toString n
  | varr xs => String.intercalate "," (jsToStringList xs)
  | vobj _ => "[object Object]"

/-- Elementwise string coercion of an array's contents. -/
def jsToStringList : List JSVal → List String
  | [] => []
  | v :: vs => jsToString v :: jsToStringList vs

end

/-- The guard pattern (x || {}) used by the iterator: a falsy value is
replaced by an empty object. -/
def orObj (v : JSVal) : JSVal :=
  if v.truthy then v else vobj []

/-- Whether the value is an Array instance (the instanceof Array test). -/
def isArray : JSVal → Bool
  | varr _ => true
  | _ => false

end JSVal

open JSVal

/-! ## CBWResponse: raw text plus lazily computed parse

The base wrapper stores the raw XML text and a json field. The text
setter stores the new text and resets json to null; toJSON returns null
for empty text, otherwise parses on a null json cache and returns the
cached value. The parser is passed explicitly. -/

/-- State of a CBWResponse wrapper: the stored raw text (textValue) and
the json cache field, which is JSVal.vnull when invalidated. -/
structure RespState where
  textValue : String
  json : JSVal

/-- The text setter: set text(text) stores the text and nulls the cache. -/
def setText (t : String) (_s : RespState) : RespState :=
  { textValue := t, json := JSVal.vnull }

/-- Constructing a wrapper assigns this.text = text through the setter. -/
def mkRespState (t : String) : RespState :=
  setText t { textValue := "", json := JSVal.vnull }

/-- Result of one toJSON call: the returned value, the new state, and
whether the parser was invoked on this call. -/
structure ToJSONResult where
  ret : JSVal
  state : RespState
  didParse : Bool

/-- The toJSON method: returns null when the text is falsy (empty);
otherwise parses the text into the cache when the cache is falsy, and
returns the cache. -/
def toJSON (parse : String → JSVal) (s : RespState) : ToJSONResult :=
  if s.textValue = "" then
    { ret := JSVal.vnull, state := s, didParse := false }
  else if s.json.truthy then
    { ret := s.json, state := s, didParse := false }
  else
    let j := parse s.textValue
    { ret := j, state := { s with json := j }, didParse := true }

/-! ### Operation traces over a wrapper (claim C4)

A client of a wrapper performs a sequence of raw-text replacements and
toJSON reads. Each step is recorded as an event carrying enough data to
state the staleness and recomputation properties. -/

/-- An operation on a wrapper: replace the raw text, or read via toJSON. -/
inductive WrapOp where
  | set : String → WrapOp
  | read : WrapOp
deriving Repr, DecidableEq

/-- An event in a run: a text replacement, a read answered from the
cache, or a read that invoked the parser; read events record the text
current at the read and the value returned. -/
inductive WrapEvent where
  | setEv : String → WrapEvent
  | readCached : String → JSVal → WrapEvent
  | readParsed : String → JSVal → WrapEvent

/-- Run a sequence of operations from a state, collecting the events. -/
def runEvents (parse : String → JSVal) (s : RespState) :
    List WrapOp → List WrapEvent
  | [] => []
  | WrapOp.set t :: ops => WrapEvent.setEv t :: runEvents parse (setText t s) ops
  | WrapOp.read :: ops =>
      let r := toJSON parse s
      (if r.didParse then WrapEvent.readParsed s.textValue r.ret
       else WrapEvent.readCached s.textValue r.ret) :: runEvents parse r.state ops

/-- Freshness of a single read event: the value returned by a read over
nonempty text is the parse of the text current at that read. -/
def eventFresh (parse : String → JSVal) : WrapEvent → Prop
  | WrapEvent.setEv _ => True
  | WrapEvent.readCached t v => t = "" ∨ v = parse t
  | WrapEvent.readParsed t v => t = "" ∨ v = parse t

/-- No parsing read occurs before the next text replacement. -/
def noParseUntilSet : List WrapEvent → Bool
  | [] => true
  | WrapEvent.setEv _ :: _ => true
  | WrapEvent.readCached _ _ :: evs => noParseUntilSet evs
  | WrapEvent.readParsed _ _ :: _ => false

/-- Recompute-only-after-replacement over an event list: from any parsing
read onward, no second parsing read occurs before a text replacement. -/
def noReparseBeforeSet : List WrapEvent → Bool
  | [] => true
  | WrapEvent.setEv _ :: evs => noReparseBeforeSet evs
  | WrapEvent.readCached _ _ :: evs => noReparseBeforeSet evs
  | WrapEvent.readParsed _ _ :: evs => noParseUntilSet evs && noReparseBeforeSet evs

/-! ## Response accessors

The getters of CBWTNSResponse, CBWOrderResponse, CBWCheckOrderResponse
and CBWDisconnectOrderResponse read the parsed structure. A property
access on a nullish base throws, so accessors produce Option JSVal:
none models a thrown TypeError, some v a returned value (possibly the
JavaScript null the getters return on a missing parse). -/

/-- Array.prototype.map over a callback that may throw: the first throw
aborts the whole map. -/
def mapThrow (f : α → Option β) : List α → Option (List β)
  | [] => some []
  | x :: xs => do pure ((← f x) :: (← mapThrow f xs))

/-- Body of the CBWTNSResponse.Numbers getter applied to the truthy
parsed structure: reads SipPeerTelephoneNumbersResponse
.SipPeerTelephoneNumbers.SipPeerTelephoneNumber, maps FullNumber text
over an array, and wraps a single element in a one-element array. -/
def tnsNumbersOf (json : JSVal) : Option JSVal := do
  let tn ← jsGetPath json
    ["SipPeerTelephoneNumbersResponse", "SipPeerTelephoneNumbers",
     "SipPeerTelephoneNumber"]
  match tn with
  | JSVal.varr items => do
      let texts ← mapThrow (fun item => jsGetPath item ["FullNumber", "_text"]) items
      pure (JSVal.varr texts)
  | single => do
      let t ← jsGetPath single ["FullNumber", "_text"]
      pure (JSVal.varr [t])

/-- The CBWTNSResponse.Numbers getter: calls toJSON (which may parse and
fill the cache), returns null on a falsy parse, otherwise reads
this.json. Returns the value together with the updated wrapper state. -/
def tnsNumbers (parse : String → JSVal) (s : RespState) :
    Option JSVal × RespState :=
  let r := toJSON parse s
  if !r.ret.truthy then (some JSVal.vnull, r.state)
  else (tnsNumbersOf r.state.json, r.state)

/-- The CBWOrderResponse.Status getter: null on a falsy json field,
otherwise this.json.OrderResponse.OrderStatus text. -/
def orderStatus (s : RespState) : Option JSVal :=
  if !s.json.truthy then some JSVal.vnull
  else jsGetPath s.json ["OrderResponse", "OrderStatus", "_text"]

/-- The CBWOrderResponse.Id getter: null on a falsy json field,
otherwise this.json.OrderResponse.Order.id text. -/
def orderId (s : RespState) : Option JSVal :=
  if !s.json.truthy then some JSVal.vnull
  else jsGetPath s.json ["OrderResponse", "Order", "id", "_text"]

/-- The CBWCheckOrderResponse.Status getter, same read as
CBWOrderResponse.Status. -/
def checkOrderStatus (s : RespState) : Option JSVal :=
  if !s.json.truthy then some JSVal.vnull
  else jsGetPath s.json ["OrderResponse", "OrderStatus", "_text"]

/-- The CBWCheckOrderResponse.Numbers getter: null on a falsy json
field; over an array of completed numbers, maps each to the string +1
followed by the FullNumber text; for a single completed number, returns
that one formatted string itself (not wrapped in an array). -/
def checkOrderNumbers (s : RespState) : Option JSVal :=
  if !s.json.truthy then some JSVal.vnull
  else do
    let tn ← jsGetPath s.json ["OrderResponse", "CompletedNumbers", "TelephoneNumber"]
    match tn with
    | JSVal.varr items => do
        let strs ← mapThrow (fun item => do
          let t ← jsGetPath item ["FullNumber", "_text"]
          pure (JSVal.vstr ("+1" ++ jsToString t))) items
        pure (JSVal.varr strs)
    | single => do
        let t ← jsGetPath single ["FullNumber", "_text"]
        pure (JSVal.vstr ("+1" ++ jsToString t))

/-- The CBWDisconnectOrderResponse.Status getter. -/
def disconnectStatus (s : RespState) : Option JSVal :=
  if !s.json.truthy then some JSVal.vnull
  else jsGetPath s.json ["DisconnectTelephoneNumberOrderResponse", "OrderStatus", "_text"]

/-! ## Pagination iterator (CBWTNSResponse.next) -/

/-- A chain of property reads in which every base is first replaced by
an empty object when falsy, as in the (x || {}).k guard pattern. -/
def guardedGet (v : JSVal) : List String → JSVal
  | [] => v
  | k :: ks => guardedGet (v.orObj.objGet k) ks

/-- The path from the parsed listing body to the next-link text. -/
def tnsLinkPath : List String :=
  ["SipPeerTelephoneNumbersResponse", "Links", "next", "_text"]

/-- The next-link text as read by the guard chain in next(): each
intermediate value is replaced by an empty object when falsy, so the
chain never throws; the toJSON call may fill the cache, so the updated
state is returned as well. -/
def tnsNextLinkText (parse : String → JSVal) (s : RespState) : JSVal × RespState :=
  let r := toJSON parse s
  (guardedGet r.ret tnsLinkPath, r.state)

/-- Whether a parsed listing body contains a next-link: the plain
(unguarded) read of the link text succeeds and yields a truthy value. -/
def hasNextLink (json : JSVal) : Bool :=
  match jsGetPath json tnsLinkPath with
  | some v => v.truthy
  | none => false

/-- Capture group 1 of the regular expression matching an angle-bracket
delimited span, applied by next() to the link text: the span between the
first opening angle bracket and the last closing angle bracket, when it
is nonempty; none models a failed match, on which the code throws
reading element 1 of null. The link text contains no newline, so the
dot-any class of the regular expression is unrestricted here. -/
def extractLink (s : String) : Option String :=
  let cs := s.toList
  match cs.findIdx? (fun c => c == '<'), cs.reverse.findIdx? (fun c => c == '>') with
  | some i, some k =>
      let j := cs.length - 1 - k
      if i + 1 < j then some (String.mk ((cs.drop (i + 1)).take (j - (i + 1))))
      else none
  | _, _ => none

/-- An HTTP response as observed by the code: the ok flag, the status
text and the body text. -/
structure HttpResp where
  ok : Bool
  statusText : String
  body : String

/-- Outcome of calling next() on the iterator, before any awaiting: done
when the guarded link text is falsy; thrown when the link text does not
match the regular expression (reading element 1 of null); otherwise a
pending step recording the fetched URL and the wrapper state after the
toJSON calls. -/
inductive TNSNextOutcome where
  | done : RespState → TNSNextOutcome
  | thrown : RespState → TNSNextOutcome
  | step : String → RespState → TNSNextOutcome

/-- The synchronous part of next(): test the guarded link text; when
truthy, extract the URL from the unguarded link text read through a
second toJSON call. -/
def tnsNext (parse : String → JSVal) (s : RespState) : TNSNextOutcome :=
  let (v, s1) := tnsNextLinkText parse s
  if !v.truthy then TNSNextOutcome.done s1
  else
    let r2 := toJSON parse s1
    match jsGetPath r2.ret tnsLinkPath with
    | none => TNSNextOutcome.thrown r2.state
    | some linkText =>
        match extractLink (jsToString linkText) with
        | none => TNSNextOutcome.thrown r2.state
        | some url => TNSNextOutcome.step url r2.state

/-- Awaiting the value yielded by a non-final next() step, given the
HTTP response of the fetch: a non-success status throws a CBWTNSError
carrying the status text; otherwise the iterator wrapper's raw text is
replaced with the fetched body (resetting the parse cache), and a fresh
CBWTNSResponse over that same body is the awaited value. -/
def tnsNextResolve (s : RespState) (resp : HttpResp) :
    Except String (RespState × RespState) :=
  if !resp.ok then Except.error resp.statusText
  else
    let s1 := setText resp.body s
    Except.ok (s1, mkRespState s1.textValue)

/-! ## The CBandwidth client

Methods are split into a request stage (parameter validation and
request construction, no I/O) and a completion stage (from the HTTP
response to the wrapper or the thrown error). An omitted argument is
modelled as none: JavaScript evaluates the default initializer exactly
for omitted or undefined arguments, and the initializer v throws. -/

/-- Message of the error thrown by the parameter validator v. -/
def vErr (cls param : String) : String :=
  "Class " ++ cls ++ ": Not valid param: " ++ param

/-- Options object; only pageSize is ever read. -/
structure BWOpts where
  pageSize : Nat

/-- Client state after construction. The Authorization header is Basic
followed by the base64 of login:pass; base64 plays no role in any claim,
so the header is carried as the raw login:pass credential string. -/
structure CBandwidthState where
  headersAuth : String
  site : String
  accId : String
  options : BWOpts
  sippeerId : Option String
  baseUrl : String

/-- The CBandwidth constructor: login, pass, accId and site throw via v
when omitted; opts defaults to pageSize 100; sippeerId has no default
initializer, so omitting it simply stores undefined (none). -/
def mkCBandwidth (login pass accId site : Option String) (opts : Option BWOpts)
    (sippeerId : Option String) : Except String CBandwidthState := do
  let l ← match login with
    | some x => pure x
    | none => throw (vErr "CBandwidth" "login")
  let p ← match pass with
    | some x => pure x
    | none => throw (vErr "CBandwidth" "password")
  let a ← match accId with
    | some x => pure x
    | none => throw (vErr "CBandwidth" "accountId")
  let s ← match site with
    | some x => pure x
    | none => throw (vErr "CBandwidth" "site-id")
  let o := opts.getD { pageSize := 100 }
  pure { headersAuth := l ++ ":" ++ p, site := s, accId := a, options := o,
         sippeerId := sippeerId,
         baseUrl := "https://dashboard.bandwidth.com/api" }

/-- An HTTP request as built by the client: URL, method, and for POSTs
the request body as the JavaScript object handed to the XML serializer
(js2xml, a collaborator outside this repository). -/
structure HttpRequest where
  url : String
  method : String
  body : Option JSVal

/-- getSipPeersTNS request stage: validates the sippeer id and builds
the page-1 listing GET. -/
def getSipPeersTNS_request (c : CBandwidthState) (sippeerId : Option String) :
    Except String HttpRequest := do
  let sp ← match sippeerId with
    | some x => pure x
    | none => throw (vErr "CBandwidth" "sippeer-id")
  pure { url := c.baseUrl ++ "/accounts/" ++ c.accId ++ "/sites/" ++ c.site
           ++ "/sippeers/" ++ sp ++ "/tns?page=1&size="
           ++ toString c.options.pageSize,
         method := "GET", body := none }

/-- getSipPeersTNS completion stage: a non-success status throws a
CBWTNSError carrying the status text; otherwise a CBWTNSResponse is
built over the body. -/
def getSipPeersTNS_complete (resp : HttpResp) : Except String RespState :=
  if !resp.ok then Except.error resp.statusText
  else Except.ok (mkRespState resp.body)

/-- Query object passed to searchAndOrderDID. The quantity field models
the numeric quantity; none stands for an absent or non-numeric (NaN)
quantity, both of which the code replaces by 1, as it does a quantity
of 0 (falsy). -/
structure DIDQuery where
  areaCode : Option String
  city : Option String
  state : Option String
  quantity : Option Nat

/-- searchAndOrderDID request stage: normalizes the quantity, builds the
area-code order object or (overriding it) the city/state order object,
throws when neither shape applies, and POSTs the object. -/
def searchAndOrderDID_request (c : CBandwidthState) (q : DIDQuery) :
    Except String HttpRequest := do
  let quantity : Nat := match q.quantity with
    | none => 1
    | some n => if n = 0 then 1 else n
  let peerVal : JSVal := match c.sippeerId with
    | some sp => JSVal.vstr sp
    | none => JSVal.vundef
  let obj0 : Option JSVal := match q.areaCode with
    | some ac => some (JSVal.vobj [("Order", JSVal.vobj
        [("SiteId", JSVal.vstr c.site), ("PeerId", peerVal),
         ("AreaCodeSearchAndOrderType", JSVal.vobj
            [("AreaCode", JSVal.vstr ac),
             ("Quantity", JSVal.vnum quantity)])])])
    | none => none
  let obj1 : Option JSVal := match q.city, q.state with
    | some city, some st => some (JSVal.vobj [("Order", JSVal.vobj
        [("SiteId", JSVal.vstr c.site), ("PeerId", peerVal),
         ("CitySearchAndOrderType", JSVal.vobj
            [("City", JSVal.vstr city), ("State", JSVal.vstr st),
             ("Quantity", JSVal.vnum quantity)])])])
    | _, _ => obj0
  match obj1 with
  | none => throw "Not enough parameters"
  | some obj =>
      pure { url := c.baseUrl ++ "/accounts/" ++ c.accId ++ "/orders",
             method := "POST", body := some obj }

/-- searchAndOrderDID completion stage: a non-success status throws the
status text; otherwise a CBWOrderResponse is built, whose constructor
runs toJSON once. -/
def searchAndOrderDID_complete (parse : String → JSVal) (resp : HttpResp) :
    Except String RespState :=
  if !resp.ok then Except.error resp.statusText
  else Except.ok (toJSON parse (mkRespState resp.body)).state

/-- checkOrder request stage: validates the order id and builds the GET
with tndetail. -/
def checkOrder_request (c : CBandwidthState) (orderid : Option String) :
    Except String HttpRequest := do
  let oid ← match orderid with
    | some x => pure x
    | none => throw (vErr "CBandwidth" "orderid")
  pure { url := c.baseUrl ++ "/accounts/" ++ c.accId ++ "/orders/" ++ oid
           ++ "?tndetail=true",
         method := "GET", body := none }

/-- checkOrder completion stage: a non-success status throws the status
text; otherwise a CBWCheckOrderResponse is built, whose constructor runs
toJSON once. -/
def checkOrder_complete (parse : String → JSVal) (resp : HttpResp) :
    Except String RespState :=
  if !resp.ok then Except.error resp.statusText
  else Except.ok (toJSON parse (mkRespState resp.body)).state

/-- disconnect request stage: validates both parameters, throws when the
numbers argument is not an Array instance, evaluates (and discards) the
map wrapping each element in a text object, and serializes the original
numbers array into the order object. -/
def disconnect_request (c : CBandwidthState) (orderid : Option String)
    (numbers : Option JSVal) : Except String HttpRequest := do
  let oid ← match orderid with
    | some x => pure x
    | none => throw (vErr "CBandwidth" "orderid")
  let nums ← match numbers with
    | some x => pure x
    | none => throw (vErr "CBandwidth" "numbers")
  match nums with
  | JSVal.varr items =>
      let _discarded := items.map (fun item => JSVal.vobj [("_text", item)])
      pure { url := c.baseUrl ++ "/accounts/" ++ c.accId ++ "/disconnects",
             method := "POST",
             body := some (JSVal.vobj [("DisconnectTelephoneNumberOrder", JSVal.vobj
               [("CustomerOrderId", JSVal.vstr oid),
                ("DisconnectTelephoneNumberOrderType", JSVal.vobj
                  [("TelephoneNumberList", JSVal.vobj
                    [("TelephoneNumber", JSVal.varr items)])])])]) }
  | _ => throw "Empty numbers array"

/-- disconnect completion stage: a non-success status throws the status
text; otherwise a CBWDisconnectOrderResponse is built. -/
def disconnect_complete (parse : String → JSVal) (resp : HttpResp) :
    Except String RespState :=
  if !resp.ok then Except.error resp.statusText
  else Except.ok (toJSON parse (mkRespState resp.body)).state

/-! ## Eager all-pages aggregation (getSipPeersTNSAll)

The for-of loop over the response object awaits each yielded step and
pushes that page's Numbers. The successive HTTP responses the server
returns for the successive fetched links are supplied as a list; the
loop is structurally recursive on it. -/

/-- Dispatch on the iterator's next() outcome: done ends the loop with
no further numbers, a thrown TypeError aborts, and a pending step runs
the given continuation on the step's wrapper state. -/
def tnsAllDispatch (onStep : RespState → Except String (List JSVal)) :
    TNSNextOutcome → Except String (List JSVal)
  | TNSNextOutcome.done _ => Except.ok []
  | TNSNextOutcome.thrown _ => Except.error "TypeError"
  | TNSNextOutcome.step _ s1 => onStep s1

/-- One awaited iteration of the for-of loop: a non-success fetch aborts
with the status text; otherwise the fetched page's Numbers (which must
be an array for the spread to succeed) are pushed before the rest of the
loop's result. -/
def tnsAllCont (parse : String → JSVal) (resp : HttpResp)
    (tail : Except String (List JSVal)) : Except String (List JSVal) :=
  if !resp.ok then Except.error resp.statusText
  else
    match (tnsNumbers parse (mkRespState resp.body)).1 with
    | some (JSVal.varr nums) => do
        let t ← tail
        pure (nums ++ t)
    | _ => Except.error "TypeError"

/-- The loop of getSipPeersTNSAll, run on the iterator wrapper state:
the head response of the list answers the fetch of each non-final step.
When the link chain outlives the supplied responses the model stops with
a distinguished error (never reached under the chain hypotheses of the
theorems). -/
def tnsAllLoop (parse : String → JSVal) (s : RespState) :
    List HttpResp → Except String (List JSVal)
  | [] =>
      tnsAllDispatch (fun _ => Except.error "model: no further response supplied")
        (tnsNext parse s)
  | resp :: rest =>
      tnsAllDispatch
        (fun s1 => tnsAllCont parse resp
          (tnsAllLoop parse (setText resp.body s1) rest))
        (tnsNext parse s)

/-- getSipPeersTNSAll after a successful first-page fetch of the given
body: reads the first page's Numbers, then aggregates the Numbers of
each subsequent page in fetch order. -/
def getSipPeersTNSAll_model (parse : String → JSVal) (firstBody : String)
    (resps : List HttpResp) : Except String (List JSVal) :=
  match (tnsNumbers parse (mkRespState firstBody)).1 with
  | some (JSVal.varr nums) => do
      let tail ← tnsAllLoop parse
        (tnsNumbers parse (mkRespState firstBody)).2 resps
      pure (nums ++ tail)
  | _ => Except.error "TypeError"

/-- A proper page chain: every page except the last steps to a further
URL, and the last page reports done. -/
def chainOk (parse : String → JSVal) : List String → Prop
  | [] => True
  | [b] => ∃ s1, tnsNext parse (mkRespState b) = TNSNextOutcome.done s1
  | b :: rest =>
      (∃ url s1, tnsNext parse (mkRespState b) = TNSNextOutcome.step url s1) ∧
      chainOk parse rest

/-! ## UnifiedResponse -/

/-- JavaScript String.prototype.indexOf for a single character: the
first index, or -1 when absent. -/
def jsIndexOf (s : String) (c : Char) : Int :=
  match s.toList.findIdx? (fun x => x == c) with
  | some i => (i : Int)
  | none => -1

/-- JavaScript String.prototype.substring: negative bounds clamp to 0,
bounds beyond the length clamp to the length, and swapped bounds are
exchanged. -/
def jsSubstring (s : String) (a b : Int) : String :=
  let len := s.toList.length
  let a1 := min (max a 0).toNat len
  let b1 := min (max b 0).toNat len
  let lo := min a1 b1
  let hi := max a1 b1
  String.mk ((s.toList.drop lo).take (hi - lo))

/-- The static UnifiedResponse parse-area-code helper (source name with
a leading underscore): the substring strictly between the first opening
parenthesis and the first closing parenthesis when both occur, null
otherwise. -/
def parseAreaCode (input : String) : Option String :=
  let start := jsIndexOf input '('
  let e := jsIndexOf input ')'
  if start > -1 && e > -1 then some (jsSubstring input (start + 1) e)
  else none

/-- One entry of the unified result: the object pushed per completed
number. -/
structure Did where
  peerId : JSVal
  didId : JSVal
  e164 : String
  countryCodeA3 : String
  areaCode : Option String

/-- The unified allocation result: the dids list and the count of
completed-number entries. -/
structure UnifiedResult where
  dids : List Did
  resultCount : Nat

/-- The UnifiedResponse.Response getter over the stored object: reads
the completed numbers (normalizing the single-number shape to a
one-element array), then builds one did per number, with the peer id and
order id attached, the e164 string +1 followed by the number text, the
constant country code, and the area code parsed from the summary text.
The summary argument reaching the indexOf calls of the helper is
required to be a string; a nullish or object summary throws. -/
def unifiedResponse (obj : JSVal) : Option UnifiedResult := do
  let numbers0 ← jsGetPath obj ["OrderResponse", "CompletedNumbers", "TelephoneNumber"]
  let numbers ← match numbers0 with
    | JSVal.varr xs => some xs
    | single => do
        let t ← jsGetPath single ["FullNumber", "_text"]
        pure [JSVal.vobj [("FullNumber", JSVal.vobj [("_text", t)])]]
  let dids ← mapThrow (fun item => do
    let peerId ← jsGetPath obj ["OrderResponse", "Order", "PeerId", "_text"]
    let didId ← jsGet obj "order_id"
    let fn ← jsGetPath item ["FullNumber", "_text"]
    let summary ← jsGetPath obj ["OrderResponse", "Summary", "_text"]
    let summaryText ← match summary with
      | JSVal.vstr str => some str
      | _ => none
    pure { peerId := peerId, didId := didId,
           e164 := "+1" ++ jsToString fn, countryCodeA3 := "USA",
           areaCode := parseAreaCode summaryText : Did }) numbers
  pure { dids := dids, resultCount := numbers.length }

/-! ## The allocate workflow

allocate submits the order, then in a one-shot timer callback inspects
the order status; the inner promise resolves or rejects only inside the
RECEIVED branch. The order wrapper and the check wrapper (the result of
the one checkOrder call) are taken as inputs; the promise outcome and
the final outcome of allocate are computed from them. -/

/-- Loose equality of a JSVal against a string literal, as used by the
status comparisons: nullish values compare false, strings compare by
equality, and arrays, objects and numbers compare through their string
coercion (for numbers this matches JavaScript exactly when the literal
is in canonical form, which the constant status literals are not, so
they compare false as in JavaScript). -/
def jsEqStr : JSVal → String → Bool
  | JSVal.vnull, _ => false
  | JSVal.vundef, _ => false
  | v, s => jsToString v = s

/-- Strict-mode property assignment: updates the first binding of the
key, or appends one; assignment on any non-object throws. -/
def objSet (v : JSVal) (k : String) (x : JSVal) : Option JSVal :=
  match v with
  | JSVal.vobj fields =>
      if (fields.find? (fun p => p.1 = k)).isSome then
        some (JSVal.vobj (fields.map (fun p => if p.1 = k then (k, x) else p)))
      else some (JSVal.vobj (fields ++ [(k, x)]))
  | _ => none

/-- Outcome of the inner promise of allocate: pending when no settle
call is reached (or the callback dies on a thrown getter), resolved
with the unified-response object when the check status is COMPLETE (the
later reject call hits an already-settled promise and is ignored),
rejected with the observed check status otherwise. -/
inductive AllocPromise where
  | pending : AllocPromise
  | resolvedUnified : JSVal → AllocPromise
  | rejected : JSVal → AllocPromise

/-- The timer callback of allocate, given the order wrapper and the
check wrapper. -/
def allocatePromise (parse : String → JSVal) (orderS checkS : RespState) :
    AllocPromise :=
  match orderStatus orderS with
  | none => AllocPromise.pending
  | some st =>
    if st.truthy && jsEqStr st "RECEIVED" then
      match checkOrderStatus checkS with
      | none => AllocPromise.pending
      | some cst =>
        if jsEqStr cst "COMPLETE" then
          match orderId orderS with
          | none => AllocPromise.pending
          | some oid =>
            match objSet (toJSON parse checkS).ret "order_id" oid with
            | none => AllocPromise.pending
            | some obj => AllocPromise.resolvedUnified obj
        else AllocPromise.rejected cst
    else AllocPromise.pending

/-- Number of checkOrder calls the timer callback performs: one inside
the RECEIVED branch, zero otherwise. -/
def allocateChecks (orderS : RespState) : Nat :=
  match orderStatus orderS with
  | none => 0
  | some st => if st.truthy && jsEqStr st "RECEIVED" then 1 else 0

/-- Final outcome of allocate: pending when the awaited promise never
settles; a unified result (or a TypeError escaping the Response getter)
on resolution; on rejection the catch handler converts the rejection
reason into the awaited value, whose Response property is then returned
(undefined for a string reason). -/
inductive AllocateOutcome where
  | pending : AllocateOutcome
  | returnsResult : UnifiedResult → AllocateOutcome
  | returnsJS : JSVal → AllocateOutcome
  | throws : AllocateOutcome

/-- The allocate method from the order and check wrappers onward. -/
def allocate (parse : String → JSVal) (orderS checkS : RespState) :
    AllocateOutcome :=
  match allocatePromise parse orderS checkS with
  | AllocPromise.pending => AllocateOutcome.pending
  | AllocPromise.resolvedUnified obj =>
      match unifiedResponse obj with
      | some r => AllocateOutcome.returnsResult r
      | none => AllocateOutcome.throws
  | AllocPromise.rejected reason =>
      match jsGet reason "Response" with
      | some x => AllocateOutcome.returnsJS x
      | none => AllocateOutcome.throws

/-! ## Concrete fixtures

Sample parsed bodies and wrapper states used by concrete witness and
counterexample theorems below. -/

/-- A constructed client. -/
def fixtureClient : CBandwidthState :=
  { headersAuth := "user:secret", site := "site-1", accId := "acc-1",
    options := { pageSize := 100 }, sippeerId := some "peer-9",
    baseUrl := "https://dashboard.bandwidth.com/api" }

/-- Parsed body of an order response in status RECEIVED. -/
def fixtureOrderReceivedJson : JSVal :=
  JSVal.vobj [("OrderResponse", JSVal.vobj [
    ("OrderStatus", JSVal.vobj [("_text", JSVal.vstr "RECEIVED")]),
    ("Order", JSVal.vobj [
       ("id", JSVal.vobj [("_text", JSVal.vstr "ord-1")]),
       ("PeerId", JSVal.vobj [("_text", JSVal.vstr "peer-9")])])])]

/-- Order wrapper in status RECEIVED (cache filled at construction). -/
def fixtureOrderReceived : RespState :=
  { textValue := "order-received-xml", json := fixtureOrderReceivedJson }

/-- Order wrapper in status FAILED. -/
def fixtureOrderFailed : RespState :=
  { textValue := "order-failed-xml",
    json := JSVal.vobj [("OrderResponse", JSVal.vobj [
      ("OrderStatus", JSVal.vobj [("_text", JSVal.vstr "FAILED")])])] }

/-- Parsed body of a COMPLETE check-order response with two completed
numbers. -/
def fixtureCheckCompleteJson : JSVal :=
  JSVal.vobj [("OrderResponse", JSVal.vobj [
    ("OrderStatus", JSVal.vobj [("_text", JSVal.vstr "COMPLETE")]),
    ("Order", JSVal.vobj [("PeerId", JSVal.vobj [("_text", JSVal.vstr "peer-9")])]),
    ("Summary", JSVal.vobj [("_text", JSVal.vstr "2 numbers in (212)")]),
    ("CompletedNumbers", JSVal.vobj [("TelephoneNumber", JSVal.varr [
       JSVal.vobj [("FullNumber", JSVal.vobj [("_text", JSVal.vstr "2125550001")])],
       JSVal.vobj [("FullNumber", JSVal.vobj [("_text", JSVal.vstr "2125550002")])]])])])]

/-- Check wrapper over the COMPLETE body. -/
def fixtureCheckComplete : RespState :=
  { textValue := "check-complete-xml", json := fixtureCheckCompleteJson }

/-- The COMPLETE check body with the order id attached, as built inside
allocate before constructing the UnifiedResponse. -/
def fixtureUnifiedObj : JSVal :=
  JSVal.vobj [("OrderResponse", JSVal.vobj [
    ("OrderStatus", JSVal.vobj [("_text", JSVal.vstr "COMPLETE")]),
    ("Order", JSVal.vobj [("PeerId", JSVal.vobj [("_text", JSVal.vstr "peer-9")])]),
    ("Summary", JSVal.vobj [("_text", JSVal.vstr "2 numbers in (212)")]),
    ("CompletedNumbers", JSVal.vobj [("TelephoneNumber", JSVal.varr [
       JSVal.vobj [("FullNumber", JSVal.vobj [("_text", JSVal.vstr "2125550001")])],
       JSVal.vobj [("FullNumber", JSVal.vobj [("_text", JSVal.vstr "2125550002")])]])])]),
    ("order_id", JSVal.vstr "ord-1")]

/-- Check wrapper whose order status is FAILED. -/
def fixtureCheckFailed : RespState :=
  { textValue := "check-failed-xml",
    json := JSVal.vobj [("OrderResponse", JSVal.vobj [
      ("OrderStatus", JSVal.vobj [("_text", JSVal.vstr "FAILED")])])] }

/-- Check wrapper whose completed numbers hold a single telephone
number (no surrounding array in the parsed XML). -/
def fixtureCheckSingle : RespState :=
  { textValue := "check-single-xml",
    json := JSVal.vobj [("OrderResponse", JSVal.vobj [
      ("CompletedNumbers", JSVal.vobj [("TelephoneNumber",
         JSVal.vobj [("FullNumber", JSVal.vobj [("_text", JSVal.vstr "5551234567")])])])])] }

/-- Parsed first listing page: two numbers and a next link. -/
def fixturePage1Json : JSVal :=
  JSVal.vobj [("SipPeerTelephoneNumbersResponse", JSVal.vobj [
    ("SipPeerTelephoneNumbers", JSVal.vobj [("SipPeerTelephoneNumber", JSVal.varr [
       JSVal.vobj [("FullNumber", JSVal.vobj [("_text", JSVal.vstr "111")])],
       JSVal.vobj [("FullNumber", JSVal.vobj [("_text", JSVal.vstr "222")])]])]),
    ("Links", JSVal.vobj [("next", JSVal.vobj [("_text",
       JSVal.vstr "<https://host/tns?page=2>")])])])]

/-- Parsed last listing page: a single number and no link. -/
def fixturePage2Json : JSVal :=
  JSVal.vobj [("SipPeerTelephoneNumbersResponse", JSVal.vobj [
    ("SipPeerTelephoneNumbers", JSVal.vobj [("SipPeerTelephoneNumber",
       JSVal.vobj [("FullNumber", JSVal.vobj [("_text", JSVal.vstr "333")])])])])]

/-- A parser mapping the two fixture page bodies to their parses. -/
def fixturePagesParse : String → JSVal := fun t =>
  if t = "page1" then fixturePage1Json
  else if t = "page2" then fixturePage2Json
  else JSVal.vobj [("parsed", JSVal.vstr t)]

/-! ## Theorems -/

/-- A throwing map over elements on which the callback succeeds is the
plain map of the returned values. -/
theorem mapThrow_eq_map (f : α → Option β) (g : α → β) :
    ∀ l : List α, (∀ x ∈ l, f x = some (g x)) → mapThrow f l = some (l.map g) := by
  intro l
  induction l with
  | nil => intro _; rfl
  | cons x xs ih =>
      intro h
      simp [mapThrow, h x (by simp), ih (fun y hy => h y (by simp [hy]))]

/-- C5 (amended): omitting login, password, accountId or site-id at
construction, or the sippeer id of the listing method, the order id of
the check-order method, or the order id or numbers of the disconnect
method, throws the corresponding validation error before any request is
built; the constructor performs no validation of its SIP-peer id
parameter. -/
theorem c5_required_params :
    (∀ p a s o sp, mkCBandwidth none p a s o sp =
      Except.error (vErr "CBandwidth" "login")) ∧
    (∀ l a s o sp, mkCBandwidth (some l) none a s o sp =
      Except.error (vErr "CBandwidth" "password")) ∧
    (∀ l p s o sp, mkCBandwidth (some l) (some p) none s o sp =
      Except.error (vErr "CBandwidth" "accountId")) ∧
    (∀ l p a o sp, mkCBandwidth (some l) (some p) (some a) none o sp =
      Except.error (vErr "CBandwidth" "site-id")) ∧
    (∀ c, getSipPeersTNS_request c none =
      Except.error (vErr "CBandwidth" "sippeer-id")) ∧
    (∀ c, checkOrder_request c none =
      Except.error (vErr "CBandwidth" "orderid")) ∧
    (∀ c n, disconnect_request c none n =
      Except.error (vErr "CBandwidth" "orderid")) ∧
    (∀ c oid, disconnect_request c (some oid) none =
      Except.error (vErr "CBandwidth" "numbers")) := by
  refine ⟨?_, ?_, ?_, ?_, ?_, ?_, ?_, ?_⟩ <;> intros <;> rfl

/-- C5 counterexample: constructing the client with every listed
parameter except the SIP-peer id succeeds, so omitting the SIP-peer id
does not make construction fail by throwing. -/
theorem c5_counterexample :
    (mkCBandwidth (some "user") (some "secret") (some "acc-1") (some "site-1")
      none none).isOk = true := rfl

/-- C6: for each client operation and for a page fetch of the iterator,
a non-success HTTP status makes the operation throw an error carrying
the response's status text, and no response wrapper is produced. -/
theorem c6_http_error (parse : String → JSVal) (resp : HttpResp)
    (s : RespState) (h : resp.ok = false) :
    getSipPeersTNS_complete resp = Except.error resp.statusText ∧
    searchAndOrderDID_complete parse resp = Except.error resp.statusText ∧
    checkOrder_complete parse resp = Except.error resp.statusText ∧
    disconnect_complete parse resp = Except.error resp.statusText ∧
    tnsNextResolve s resp = Except.error resp.statusText := by
  refine ⟨?_, ?_, ?_, ?_, ?_⟩ <;>
    simp [getSipPeersTNS_complete, searchAndOrderDID_complete,
      checkOrder_complete, disconnect_complete, tnsNextResolve, h]

/-- C6 witness: the five operations at a concrete failed response. -/
theorem c6_http_error_witness :
    getSipPeersTNS_complete ⟨false, "Bad Request", ""⟩ =
      Except.error "Bad Request" ∧
    searchAndOrderDID_complete (fun _ => JSVal.vnull) ⟨false, "Bad Request", ""⟩ =
      Except.error "Bad Request" ∧
    checkOrder_complete (fun _ => JSVal.vnull) ⟨false, "Bad Request", ""⟩ =
      Except.error "Bad Request" ∧
    disconnect_complete (fun _ => JSVal.vnull) ⟨false, "Bad Request", ""⟩ =
      Except.error "Bad Request" ∧
    tnsNextResolve (mkRespState "") ⟨false, "Bad Request", ""⟩ =
      Except.error "Bad Request" :=
  c6_http_error (fun _ => JSVal.vnull) ⟨false, "Bad Request", ""⟩
    (mkRespState "") rfl

/-- C10: disconnect throws exactly when the provided numbers argument is
not an Array instance (with the fixed message), and for any array,
including the empty one, the request is issued with the caller's
original elements serialized unchanged. -/
theorem c10_disconnect (c : CBandwidthState) (oid : String) (nums : JSVal) :
    ((disconnect_request c (some oid) (some nums)).isOk = true ↔
       nums.isArray = true) ∧
    (nums.isArray = false →
       disconnect_request c (some oid) (some nums) =
         Except.error "Empty numbers array") ∧
    (∀ xs, nums = JSVal.varr xs →
       disconnect_request c (some oid) (some nums) = Except.ok
         { url := c.baseUrl ++ "/accounts/" ++ c.accId ++ "/disconnects",
           method := "POST",
           body := some (JSVal.vobj [("DisconnectTelephoneNumberOrder", JSVal.vobj
             [("CustomerOrderId", JSVal.vstr oid),
              ("DisconnectTelephoneNumberOrderType", JSVal.vobj
                [("TelephoneNumberList", JSVal.vobj
                  [("TelephoneNumber", JSVal.varr xs)])])])]) }) := by
  refine ⟨?_, ?_, ?_⟩
  · cases nums <;> exact Iff.rfl
  · intro h
    cases nums <;> first
      | rfl
      | simp [JSVal.isArray] at h
  · intro xs hxs
    subst hxs
    rfl

/-- C10 witness: disconnect with an empty array issues the request with
an empty serialized list. -/
theorem c10_disconnect_witness :
    disconnect_request fixtureClient (some "ord-7") (some (JSVal.varr [])) =
      Except.ok
        { url := "https://dashboard.bandwidth.com/api/accounts/acc-1/disconnects",
          method := "POST",
          body := some (JSVal.vobj [("DisconnectTelephoneNumberOrder", JSVal.vobj
            [("CustomerOrderId", JSVal.vstr "ord-7"),
             ("DisconnectTelephoneNumberOrderType", JSVal.vobj
               [("TelephoneNumberList", JSVal.vobj
                 [("TelephoneNumber", JSVal.varr [])])])])]) } :=
  (c10_disconnect fixtureClient "ord-7" (JSVal.varr [])).2.2 [] rfl

/-- C2 counterexample: over a parsed body holding a single completed
number, the check-order Numbers accessor returns the bare formatted
string, which is not a one-element list. -/
theorem c2_counterexample :
    checkOrderNumbers fixtureCheckSingle = some (JSVal.vstr "+15551234567") ∧
    JSVal.isArray (JSVal.vstr "+15551234567") = false :=
  ⟨rfl, rfl⟩

/-- C2 (amended): over a multi-item parsed body both Numbers accessors
return one entry per item in source order; over a single-item body the
telephone-number listing accessor returns the equivalent one-element
list, but the check-order accessor returns the single formatted string
itself, not wrapped in a list. -/
theorem c2_accessor_shapes :
    (∀ (json : JSVal) (items : List JSVal) (texts : JSVal → JSVal),
       jsGetPath json ["SipPeerTelephoneNumbersResponse",
         "SipPeerTelephoneNumbers", "SipPeerTelephoneNumber"] =
           some (JSVal.varr items) →
       (∀ i ∈ items, jsGetPath i ["FullNumber", "_text"] = some (texts i)) →
       tnsNumbersOf json = some (JSVal.varr (items.map texts))) ∧
    (∀ json single t,
       jsGetPath json ["SipPeerTelephoneNumbersResponse",
         "SipPeerTelephoneNumbers", "SipPeerTelephoneNumber"] = some single →
       single.isArray = false →
       jsGetPath single ["FullNumber", "_text"] = some t →
       tnsNumbersOf json = some (JSVal.varr [t])) ∧
    (∀ (s : RespState) (items : List JSVal) (texts : JSVal → JSVal),
       s.json.truthy = true →
       jsGetPath s.json ["OrderResponse", "CompletedNumbers",
         "TelephoneNumber"] = some (JSVal.varr items) →
       (∀ i ∈ items, jsGetPath i ["FullNumber", "_text"] = some (texts i)) →
       checkOrderNumbers s = some (JSVal.varr (items.map
         (fun i => JSVal.vstr ("+1" ++ jsToString (texts i)))))) ∧
    (∀ s single t,
       s.json.truthy = true →
       jsGetPath s.json ["OrderResponse", "CompletedNumbers",
         "TelephoneNumber"] = some single →
       single.isArray = false →
       jsGetPath single ["FullNumber", "_text"] = some t →
       checkOrderNumbers s = some (JSVal.vstr ("+1" ++ jsToString t))) := by
  refine ⟨?_, ?_, ?_, ?_⟩
  · intro json items texts h1 h2
    simp [tnsNumbersOf, h1,
      mapThrow_eq_map (fun item => jsGetPath item ["FullNumber", "_text"]) texts items h2]
  · intro json single t h1 hA h2
    cases single <;> simp [JSVal.isArray] at hA <;>
      simp [tnsNumbersOf, h1, h2]
  · intro s items texts h0 h1 h2
    have hmap := mapThrow_eq_map
      (fun item => (jsGetPath item ["FullNumber", "_text"]).bind
        (fun t => some (JSVal.vstr ("+1" ++ jsToString t))))
      (fun i => JSVal.vstr ("+1" ++ jsToString (texts i))) items
      (fun x hx => by simp [h2 x hx])
    simp [checkOrderNumbers, h0, h1]
    rw [hmap]
    rfl
  · intro s single t h0 h1 hA h2
    cases single <;> simp [JSVal.isArray] at hA <;>
      simp [checkOrderNumbers, h0, h1, h2]

/-- C2 witness: the four accessor shapes at concrete parsed bodies. -/
theorem c2_accessor_shapes_witness :
    tnsNumbersOf fixturePage1Json =
      some (JSVal.varr [JSVal.vstr "111", JSVal.vstr "222"]) ∧
    tnsNumbersOf fixturePage2Json = some (JSVal.varr [JSVal.vstr "333"]) ∧
    checkOrderNumbers fixtureCheckComplete =
      some (JSVal.varr [JSVal.vstr "+12125550001", JSVal.vstr "+12125550002"]) ∧
    checkOrderNumbers fixtureCheckSingle = some (JSVal.vstr "+15551234567") := by
  refine ⟨?_, ?_, ?_, ?_⟩
  · exact c2_accessor_shapes.1 fixturePage1Json
      [JSVal.vobj [("FullNumber", JSVal.vobj [("_text", JSVal.vstr "111")])],
       JSVal.vobj [("FullNumber", JSVal.vobj [("_text", JSVal.vstr "222")])]]
      (fun i => (jsGetPath i ["FullNumber", "_text"]).getD JSVal.vundef)
      rfl (by intro i hi; simp only [List.mem_cons, List.not_mem_nil, or_false] at hi
              rcases hi with rfl | rfl <;> rfl)
  · exact c2_accessor_shapes.2.1 fixturePage2Json
      (JSVal.vobj [("FullNumber", JSVal.vobj [("_text", JSVal.vstr "333")])])
      (JSVal.vstr "333") rfl rfl rfl
  · exact c2_accessor_shapes.2.2.1 fixtureCheckComplete
      [JSVal.vobj [("FullNumber", JSVal.vobj [("_text", JSVal.vstr "2125550001")])],
       JSVal.vobj [("FullNumber", JSVal.vobj [("_text", JSVal.vstr "2125550002")])]]
      (fun i => (jsGetPath i ["FullNumber", "_text"]).getD JSVal.vundef)
      rfl rfl (by intro i hi; simp only [List.mem_cons, List.not_mem_nil, or_false] at hi
                  rcases hi with rfl | rfl <;> rfl)
  · exact c2_accessor_shapes.2.2.2 fixtureCheckSingle
      (JSVal.vobj [("FullNumber", JSVal.vobj [("_text", JSVal.vstr "5551234567")])])
      (JSVal.vstr "5551234567") rfl rfl rfl rfl

/-- C9: when the initial order status is anything but a truthy value
equal to RECEIVED (including a missing status), the timer callback
reaches no resolve or reject call, the inner promise stays pending, no
status check is performed, and allocate never completes. -/
theorem c9_allocate_pending (parse : String → JSVal) (orderS checkS : RespState)
    (h : ∀ st, orderStatus orderS = some st →
       (st.truthy && jsEqStr st "RECEIVED") = false) :
    allocatePromise parse orderS checkS = AllocPromise.pending ∧
    allocate parse orderS checkS = AllocateOutcome.pending ∧
    allocateChecks orderS = 0 := by
  have hp : allocatePromise parse orderS checkS = AllocPromise.pending := by
    cases ho : orderStatus orderS with
    | none => simp [allocatePromise, ho]
    | some st => simp [allocatePromise, ho, h st ho]
  have hc : allocateChecks orderS = 0 := by
    cases ho : orderStatus orderS with
    | none => simp [allocateChecks, ho]
    | some st => simp [allocateChecks, ho, h st ho]
  exact ⟨hp, by simp [allocate, hp], hc⟩

/-- C9 witness: an order wrapper in status FAILED leaves allocate
pending with zero checks. -/
theorem c9_allocate_pending_witness :
    allocatePromise (fun _ => JSVal.vnull) fixtureOrderFailed fixtureCheckComplete =
      AllocPromise.pending ∧
    allocate (fun _ => JSVal.vnull) fixtureOrderFailed fixtureCheckComplete =
      AllocateOutcome.pending ∧
    allocateChecks fixtureOrderFailed = 0 :=
  c9_allocate_pending (fun _ => JSVal.vnull) fixtureOrderFailed fixtureCheckComplete
    (by intro st h
        rw [show orderStatus fixtureOrderFailed = some (JSVal.vstr "FAILED") from rfl] at h
        injection h with h2
        subst h2
        rfl)

/-- C1 counterexample: with a RECEIVED order and a FAILED check status,
allocate does not fail with an error carrying the status; it completes
normally, returning undefined (the Response property of the caught
status string). -/
theorem c1_counterexample :
    orderStatus fixtureOrderReceived = some (JSVal.vstr "RECEIVED") ∧
    checkOrderStatus fixtureCheckFailed = some (JSVal.vstr "FAILED") ∧
    allocate (fun _ => JSVal.vnull) fixtureOrderReceived fixtureCheckFailed =
      AllocateOutcome.returnsJS JSVal.vundef :=
  ⟨rfl, rfl, rfl⟩

/-- C1 (amended): on a RECEIVED order exactly one status check is
performed; a COMPLETE check resolves the inner promise with the check
body carrying the attached order id and allocate returns the unified
result built from it; any other check status rejects the inner promise
with that status, but the rejection is caught by the catch handler and
allocate returns the undefined Response property of the status string
instead of failing. -/
theorem c1_allocate_poll (parse : String → JSVal) (o c : RespState) (st : JSVal)
    (ho : orderStatus o = some st)
    (hr : (st.truthy && jsEqStr st "RECEIVED") = true) :
    allocateChecks o = 1 ∧
    (∀ cst, checkOrderStatus c = some cst →
      (jsEqStr cst "COMPLETE" = true →
        ∀ oid obj, orderId o = some oid →
          objSet (toJSON parse c).ret "order_id" oid = some obj →
          allocatePromise parse o c = AllocPromise.resolvedUnified obj ∧
          ∀ r, unifiedResponse obj = some r →
            allocate parse o c = AllocateOutcome.returnsResult r) ∧
      (jsEqStr cst "COMPLETE" = false →
        allocatePromise parse o c = AllocPromise.rejected cst ∧
        ∀ s, cst = JSVal.vstr s →
          allocate parse o c = AllocateOutcome.returnsJS JSVal.vundef)) := by
  constructor
  · simp [allocateChecks, ho, hr]
  · intro cst hc
    constructor
    · intro hcomp oid obj hoid hset
      have hp : allocatePromise parse o c = AllocPromise.resolvedUnified obj := by
        simp [allocatePromise, ho, hr, hc, hcomp, hoid, hset]
      exact ⟨hp, fun r hru => by simp [allocate, hp, hru]⟩
    · intro hcomp
      have hp : allocatePromise parse o c = AllocPromise.rejected cst := by
        simp [allocatePromise, ho, hr, hc, hcomp]
      refine ⟨hp, ?_⟩
      intro s hs
      subst hs
      simp [allocate, hp, jsGet, objGet]

/-- C1 witness: the COMPLETE path at the two-number fixture builds the
unified result (one check performed). -/
theorem c1_allocate_poll_witness :
    allocateChecks fixtureOrderReceived = 1 ∧
    allocate (fun _ => JSVal.vnull) fixtureOrderReceived fixtureCheckComplete =
      AllocateOutcome.returnsResult
        { dids := [
            { peerId := JSVal.vstr "peer-9", didId := JSVal.vstr "ord-1",
              e164 := "+12125550001", countryCodeA3 := "USA",
              areaCode := some "212" },
            { peerId := JSVal.vstr "peer-9", didId := JSVal.vstr "ord-1",
              e164 := "+12125550002", countryCodeA3 := "USA",
              areaCode := some "212" }],
          resultCount := 2 } := by
  refine ⟨(c1_allocate_poll (fun _ => JSVal.vnull) fixtureOrderReceived
    fixtureCheckComplete (JSVal.vstr "RECEIVED") rfl rfl).1, ?_⟩
  exact ((((c1_allocate_poll (fun _ => JSVal.vnull) fixtureOrderReceived
    fixtureCheckComplete (JSVal.vstr "RECEIVED") rfl rfl).2
      (JSVal.vstr "COMPLETE") rfl).1 rfl (JSVal.vstr "ord-1") _ rfl rfl).2 _ rfl)

/-- Every read event in a run from a state whose cache agrees with the
parser returns the parse of the text current at that read. -/
theorem runEvents_fresh (parse : String → JSVal) :
    ∀ (ops : List WrapOp) (s : RespState),
      (s.json.truthy = true → s.json = parse s.textValue) →
      ∀ ev ∈ runEvents parse s ops, eventFresh parse ev := by
  intro ops
  induction ops with
  | nil => intro s _ ev hev; simp [runEvents] at hev
  | cons op ops ih =>
      intro s hs ev hev
      cases op with
      | set t =>
          simp only [runEvents, List.mem_cons] at hev
          rcases hev with rfl | hev
          · simp [eventFresh]
          · exact ih (setText t s)
              (by intro h; simp [setText, JSVal.truthy] at h) ev hev
      | read =>
          by_cases ht : s.textValue = ""
          · simp only [runEvents, toJSON, ht, if_true, List.mem_cons] at hev
            rcases hev with rfl | hev
            · simp [eventFresh, ht]
            · exact ih s hs ev hev
          · by_cases hj : s.json.truthy = true
            · simp only [runEvents, toJSON, ht, if_false, hj, if_true,
                List.mem_cons] at hev
              rcases hev with rfl | hev
              · exact Or.inr (hs hj)
              · exact ih s hs ev hev
            · simp only [runEvents, toJSON, ht, if_false, hj, List.mem_cons] at hev
              rcases hev with rfl | hev
              · exact Or.inr rfl
              · exact ih { s with json := parse s.textValue } (fun _ => rfl) ev hev

/-- From a state with a valid cache (or empty text), no parse occurs
before the next text replacement. -/
theorem runEvents_noParseUntilSet (parse : String → JSVal) :
    ∀ (ops : List WrapOp) (s : RespState),
      (s.json.truthy = true ∨ s.textValue = "") →
      noParseUntilSet (runEvents parse s ops) = true := by
  intro ops
  induction ops with
  | nil => intro s _; rfl
  | cons op ops ih =>
      intro s hs
      cases op with
      | set t => rfl
      | read =>
          by_cases ht : s.textValue = ""
          · simp only [runEvents, toJSON, ht, if_true]
            simpa [noParseUntilSet] using ih s hs
          · rcases hs with hj | hj
            · simp only [runEvents, toJSON, ht, if_false, hj, if_true]
              simpa [noParseUntilSet] using ih s (Or.inl hj)
            · exact absurd hj ht

/-- With a parser whose results are always truthy (xml2js returns an
object), a run never parses twice without a text replacement in
between. -/
theorem runEvents_noReparse (parse : String → JSVal)
    (hparse : ∀ t, (parse t).truthy = true) :
    ∀ (ops : List WrapOp) (s : RespState),
      noReparseBeforeSet (runEvents parse s ops) = true := by
  intro ops
  induction ops with
  | nil => intro s; rfl
  | cons op ops ih =>
      intro s
      cases op with
      | set t => simpa [runEvents, noReparseBeforeSet] using ih (setText t s)
      | read =>
          by_cases ht : s.textValue = ""
          · simp only [runEvents, toJSON, ht, if_true]
            simpa [noReparseBeforeSet] using ih s
          · by_cases hj : s.json.truthy = true
            · simp only [runEvents, toJSON, ht, if_false, hj, if_true]
              simpa [noReparseBeforeSet] using ih s
            · simp only [runEvents, toJSON, ht, if_false, hj]
              simp only [noReparseBeforeSet, Bool.and_eq_true]
              exact ⟨runEvents_noParseUntilSet parse ops _ (Or.inl (hparse _)),
                ih _⟩

/-- C4: over every sequence of raw-text replacements and toJSON reads on
a wrapper, every read returns the parse of the text current at that
read (no stale parse is ever observed), and, with a parser whose
results are truthy objects, the parser runs only when the raw text has
been replaced since the previous parse. -/
theorem c4_lazy_parse (parse : String → JSVal)
    (hparse : ∀ t, (parse t).truthy = true) (t0 : String) (ops : List WrapOp) :
    (∀ ev ∈ runEvents parse (mkRespState t0) ops, eventFresh parse ev) ∧
    noReparseBeforeSet (runEvents parse (mkRespState t0) ops) = true :=
  ⟨runEvents_fresh parse ops (mkRespState t0)
     (by intro h; simp [mkRespState, setText, JSVal.truthy] at h),
   runEvents_noReparse parse hparse ops (mkRespState t0)⟩

/-- C4 witness: a concrete run of reads and one replacement under a
concrete parser. -/
theorem c4_lazy_parse_witness :
    (∀ ev ∈ runEvents (fun t => JSVal.vobj [("_text", JSVal.vstr t)])
       (mkRespState "a")
       [WrapOp.read, WrapOp.read, WrapOp.set "b", WrapOp.read, WrapOp.read],
       eventFresh (fun t => JSVal.vobj [("_text", JSVal.vstr t)]) ev) ∧
    noReparseBeforeSet (runEvents (fun t => JSVal.vobj [("_text", JSVal.vstr t)])
       (mkRespState "a")
       [WrapOp.read, WrapOp.read, WrapOp.set "b", WrapOp.read, WrapOp.read]) =
      true :=
  c4_lazy_parse (fun t => JSVal.vobj [("_text", JSVal.vstr t)]) (fun _ => rfl)
    "a" [WrapOp.read, WrapOp.read, WrapOp.set "b", WrapOp.read, WrapOp.read]

/-- A guarded chain starting from undefined stays undefined. -/
theorem guardedGet_vundef : ∀ ks, guardedGet JSVal.vundef ks = JSVal.vundef := by
  intro ks
  induction ks with
  | nil => rfl
  | cons k ks ih =>
      simpa [guardedGet, JSVal.orObj, JSVal.truthy, JSVal.objGet] using ih

/-- The guarded chain agrees with the plain (throwing) chained read:
when the plain read succeeds they return the same value, and when the
plain read throws on a nullish base the guarded chain yields
undefined. -/
theorem guardedGet_path : ∀ (ks : List String) (v : JSVal),
    (∀ w, jsGetPath v ks = some w → guardedGet v ks = w) ∧
    (jsGetPath v ks = none → guardedGet v ks = JSVal.vundef) := by
  intro ks
  induction ks with
  | nil =>
      intro v
      refine ⟨fun w hw => ?_, fun h => (nomatch h)⟩
      injection hw with hw
  | cons k ks ih =>
      intro v
      cases v with
      | vnull =>
          refine ⟨fun w hw => (nomatch hw), fun _ => ?_⟩
          simp [guardedGet, JSVal.orObj, JSVal.truthy, JSVal.objGet,
            guardedGet_vundef]
      | vundef =>
          refine ⟨fun w hw => (nomatch hw), fun _ => ?_⟩
          simp [guardedGet, JSVal.orObj, JSVal.truthy, JSVal.objGet,
            guardedGet_vundef]
      | vstr t =>
          by_cases hts : t = "" <;>
            simpa [guardedGet, jsGetPath, jsGet, JSVal.orObj, JSVal.truthy,
              JSVal.objGet, hts] using ih JSVal.vundef
      | vnum n =>
          by_cases hn : n = 0 <;>
            simpa [guardedGet, jsGetPath, jsGet, JSVal.orObj, JSVal.truthy,
              JSVal.objGet, hn] using ih JSVal.vundef
      | varr xs =>
          simpa [guardedGet, jsGetPath, jsGet, JSVal.orObj, JSVal.truthy,
            JSVal.objGet] using ih JSVal.vundef
      | vobj fields =>
          simpa [guardedGet, jsGetPath, jsGet, JSVal.orObj, JSVal.truthy,
            JSVal.objGet] using ih (JSVal.objGet (JSVal.vobj fields) k)

/-- A second toJSON call on the state left by a first one returns the
same value and leaves the state unchanged. -/
theorem toJSON_stable (parse : String → JSVal) (s : RespState) :
    (toJSON parse (toJSON parse s).state).ret = (toJSON parse s).ret ∧
    (toJSON parse (toJSON parse s).state).state = (toJSON parse s).state := by
  by_cases ht : s.textValue = ""
  · simp [toJSON, ht]
  · by_cases hj : s.json.truthy = true
    · simp [toJSON, ht, hj]
    · by_cases hp : (parse s.textValue).truthy = true
      · simp [toJSON, ht, hj, hp]
      · simp [toJSON, ht, hj, hp]

/-- C3: next() reports done exactly when the current parsed body has no
truthy next-link text; on a non-final step it yields the URL extracted
from the link text of the current page; and awaiting the step with a
successful fetch replaces the iterator wrapper's raw text with the
fetched body (resetting the parse cache) before the yielded wrapper,
built over the same fetched body, is available. -/
theorem c3_iterator (parse : String → JSVal) (s : RespState) :
    (tnsNext parse s = TNSNextOutcome.done (toJSON parse s).state ↔
       hasNextLink (toJSON parse s).ret = false) ∧
    (∀ w, jsGetPath (toJSON parse s).ret tnsLinkPath = some w →
       w.truthy = true →
       ∀ url, extractLink (jsToString w) = some url →
       tnsNext parse s = TNSNextOutcome.step url (toJSON parse s).state) ∧
    (∀ resp : HttpResp, resp.ok = true →
       tnsNextResolve (toJSON parse s).state resp =
         Except.ok (setText resp.body (toJSON parse s).state,
           mkRespState resp.body) ∧
       (setText resp.body (toJSON parse s).state).textValue = resp.body ∧
       (setText resp.body (toJSON parse s).state).json = JSVal.vnull) := by
  have hst := toJSON_stable parse s
  have hg := guardedGet_path tnsLinkPath (toJSON parse s).ret
  refine ⟨?_, ?_, ?_⟩
  · cases hjp : jsGetPath (toJSON parse s).ret tnsLinkPath with
    | none =>
        simp [tnsNext, tnsNextLinkText, hg.2 hjp, hasNextLink, hjp,
          JSVal.truthy]
    | some w =>
        by_cases hw : w.truthy = true
        · simp only [tnsNext, tnsNextLinkText, hg.1 w hjp, hw,
            Bool.not_true, Bool.false_eq_true, if_false, hst.1, hst.2, hjp,
            hasNextLink]
          cases hext : extractLink (jsToString w) <;> simp [hext, hw]
        · simp only [Bool.not_eq_true] at hw
          simp [tnsNext, tnsNextLinkText, hg.1 w hjp, hasNextLink, hjp, hw]
  · intro w hjp hw url hext
    simp only [tnsNext, tnsNextLinkText, hg.1 w hjp, hw, Bool.not_true,
      Bool.false_eq_true, if_false, hst.1, hst.2, hjp, hext]
  · intro resp hok
    simp [tnsNextResolve, hok, setText, mkRespState]

/-- C3 witness: one non-final step and one final page at the concrete
fixtures, and a successful resolve. -/
theorem c3_iterator_witness :
    tnsNext fixturePagesParse (mkRespState "page1") =
      TNSNextOutcome.step "https://host/tns?page=2"
        (toJSON fixturePagesParse (mkRespState "page1")).state ∧
    tnsNext fixturePagesParse (mkRespState "page2") =
      TNSNextOutcome.done (toJSON fixturePagesParse (mkRespState "page2")).state ∧
    tnsNextResolve (toJSON fixturePagesParse (mkRespState "page1")).state
        ⟨true, "OK", "page2"⟩ =
      Except.ok (setText "page2" (toJSON fixturePagesParse (mkRespState "page1")).state,
        mkRespState "page2") := by
  refine ⟨?_, ?_, ?_⟩
  · exact (c3_iterator fixturePagesParse (mkRespState "page1")).2.1
      (JSVal.vstr "<https://host/tns?page=2>") rfl rfl
      "https://host/tns?page=2" rfl
  · exact (c3_iterator fixturePagesParse (mkRespState "page2")).1.mpr rfl
  · exact ((c3_iterator fixturePagesParse (mkRespState "page1")).2.2
      ⟨true, "OK", "page2"⟩ rfl).1

/-- The iterator step is insensitive to whether the wrapper state has
already been read once: next() after an earlier toJSON call behaves as
on the fresh wrapper. -/
theorem tnsNext_stable (parse : String → JSVal) (s : RespState) :
    tnsNext parse (toJSON parse s).state = tnsNext parse s := by
  have hst := toJSON_stable parse s
  simp only [tnsNext, tnsNextLinkText, hst.1, hst.2]

/-- The Numbers getter leaves the wrapper in the state of its toJSON
call. -/
theorem tnsNumbers_snd (parse : String → JSVal) (s : RespState) :
    (tnsNumbers parse s).2 = (toJSON parse s).state := by
  by_cases h : (toJSON parse s).ret.truthy = true <;> simp [tnsNumbers, h]

/-- The all-pages loop is insensitive to an earlier toJSON call on the
wrapper state it starts from. -/
theorem tnsAllLoop_stable (parse : String → JSVal) (s : RespState)
    (resps : List HttpResp) :
    tnsAllLoop parse (toJSON parse s).state resps = tnsAllLoop parse s resps := by
  cases resps with
  | nil => simp only [tnsAllLoop, tnsNext_stable]
  | cons resp rest => simp only [tnsAllLoop, tnsNext_stable]

/-- Over a proper page chain whose fetches all succeed, the loop
aggregates the Numbers of the subsequent pages in fetch order. -/
theorem tnsAllLoop_chain (parse : String → JSVal) (nums : String → List JSVal) :
    ∀ (bs : List String) (b : String),
      (∀ x ∈ b :: bs, (tnsNumbers parse (mkRespState x)).1 =
         some (JSVal.varr (nums x))) →
      chainOk parse (b :: bs) →
      tnsAllLoop parse (mkRespState b)
          (bs.map (fun x => ⟨true, "OK", x⟩)) =
        Except.ok ((bs.map nums).flatten) := by
  intro bs
  induction bs with
  | nil =>
      intro b _ hc
      rcases hc with ⟨s1, hdone⟩
      simp [tnsAllLoop, hdone, tnsAllDispatch]
  | cons b2 bs ih =>
      intro b hn hc
      rcases hc with ⟨⟨url, s1, hstep⟩, hc2⟩
      have hy := hn b2 (by simp)
      have hrec := ih b2 (fun x hx => hn x (List.mem_cons_of_mem b hx)) hc2
      rw [List.map_cons]
      have hset : setText b2 s1 = mkRespState b2 := rfl
      simp only [tnsAllLoop, hstep, tnsAllDispatch, tnsAllCont, hset, hy, hrec]
      simp

/-- C7: for a first page followed by a proper chain of further pages,
all of whose fetches succeed, the eager all-pages operation returns the
concatenation of the Numbers of the first page and of each subsequent
page in fetch order, stopping at the page with no next-link. -/
theorem c7_all_pages (parse : String → JSVal) (nums : String → List JSVal)
    (b0 : String) (rest : List String)
    (hnums : ∀ x ∈ b0 :: rest, (tnsNumbers parse (mkRespState x)).1 =
       some (JSVal.varr (nums x)))
    (hchain : chainOk parse (b0 :: rest)) :
    getSipPeersTNSAll_model parse b0 (rest.map (fun x => ⟨true, "OK", x⟩)) =
      Except.ok (((b0 :: rest).map nums).flatten) := by
  have h0 := hnums b0 (by simp)
  have hloop := tnsAllLoop_chain parse nums rest b0 hnums hchain
  simp only [getSipPeersTNSAll_model, h0, tnsNumbers_snd, tnsAllLoop_stable,
    hloop, List.map_cons]
  simp

/-- C7 witness: the two concrete fixture pages aggregate to the three
numbers in order. -/
theorem c7_all_pages_witness :
    getSipPeersTNSAll_model fixturePagesParse "page1"
        [⟨true, "OK", "page2"⟩] =
      Except.ok [JSVal.vstr "111", JSVal.vstr "222", JSVal.vstr "333"] :=
  c7_all_pages fixturePagesParse
    (fun b => if b = "page1" then [JSVal.vstr "111", JSVal.vstr "222"]
              else [JSVal.vstr "333"])
    "page1" ["page2"]
    (by intro x hx
        simp only [List.mem_cons, List.not_mem_nil, or_false] at hx
        rcases hx with rfl | rfl <;> rfl)
    ⟨⟨"https://host/tns?page=2", _, rfl⟩, _, rfl⟩

/-- The first index of a character in a list that does not contain it
before the shown occurrence. -/
theorem findIdx_split (c : Char) :
    ∀ (l1 l2 : List Char), c ∉ l1 →
      (l1 ++ c :: l2).findIdx? (fun x => x == c) = some l1.length := by
  intro l1
  induction l1 with
  | nil => intro l2 _; simp [List.findIdx?_cons]
  | cons a l ih =>
      intro l2 h
      have hne : a ≠ c := fun hh => h (by simp [hh])
      have ha : (a == c) = false := beq_eq_false_iff_ne.mpr hne
      have hm : c ∉ l := fun hm => h (List.mem_cons_of_mem a hm)
      simp [List.findIdx?_cons, ha, ih l2 hm]

/-- Character list of a string concatenation. -/
theorem toList_append (s t : String) :
    (s ++ t).toList = s.toList ++ t.toList := by
  simp [String.toList, String.data_append]

/-- The substring helper at in-range ordered Nat bounds. -/
theorem jsSubstring_natural (s : String) (a b : Nat) (hab : a ≤ b)
    (hb : b ≤ s.toList.length) :
    jsSubstring s (a : Int) (b : Int) =
      String.mk ((s.toList.drop a).take (b - a)) := by
  unfold jsSubstring
  have h1 : (max (a : Int) 0).toNat = a := by omega
  have h2 : (max (b : Int) 0).toNat = b := by omega
  simp only [h1, h2, Nat.min_eq_left (le_trans hab hb), Nat.min_eq_left hb,
    Nat.min_eq_left hab, Nat.max_eq_right hab]

/-- The parse-area-code helper on a string split around its first
parenthesized span returns exactly the span between the parentheses. -/
theorem parseAreaCode_between (pre ac post : String)
    (h1 : '(' ∉ pre.toList) (h2 : ')' ∉ pre.toList) (h3 : ')' ∉ ac.toList) :
    parseAreaCode (pre ++ "(" ++ ac ++ ")" ++ post) = some ac := by
  have hdata : (pre ++ "(" ++ ac ++ ")" ++ post).toList =
      pre.toList ++ '(' :: (ac.toList ++ ')' :: post.toList) := by
    simp [toList_append]
  have hdata2 : (pre ++ "(" ++ ac ++ ")" ++ post).toList =
      (pre.toList ++ '(' :: ac.toList) ++ ')' :: post.toList := by
    simp [toList_append]
  have hidx1 : jsIndexOf (pre ++ "(" ++ ac ++ ")" ++ post) '(' =
      (pre.toList.length : Int) := by
    unfold jsIndexOf
    rw [hdata, findIdx_split '(' pre.toList _ h1]
  have hpre2 : ')' ∉ pre.toList ++ '(' :: ac.toList := by
    simp only [List.mem_append, List.mem_cons, not_or]
    exact ⟨h2, by decide, h3⟩
  have hidx2 : jsIndexOf (pre ++ "(" ++ ac ++ ")" ++ post) ')' =
      ((pre.toList.length + 1 + ac.toList.length : Nat) : Int) := by
    unfold jsIndexOf
    rw [hdata2, findIdx_split ')' _ _ hpre2]
    simp only [List.length_append, List.length_cons]
    norm_num
    omega
  unfold parseAreaCode
  rw [hidx1, hidx2]
  have hcond : ((pre.toList.length : Int) > -1 &&
      ((pre.toList.length + 1 + ac.toList.length : Nat) : Int) > -1) = true := by
    simp only [Bool.and_eq_true, decide_eq_true_eq]
    omega
  rw [if_pos (by simpa using hcond)]
  have hlen : pre.toList.length + 1 + ac.toList.length ≤
      (pre ++ "(" ++ ac ++ ")" ++ post).toList.length := by
    rw [hdata]
    simp [List.length_append]
    omega
  have hcast : (pre.toList.length : Int) + 1 =
      ((pre.toList.length + 1 : Nat) : Int) := by push_cast; ring
  rw [hcast, jsSubstring_natural _ _ _ (by omega) hlen]
  congr 1
  rw [hdata]
  have hsplit : pre.toList ++ '(' :: (ac.toList ++ ')' :: post.toList) =
      (pre.toList ++ ['(']) ++ (ac.toList ++ ')' :: post.toList) := by simp
  rw [hsplit, List.drop_left' (by simp), Nat.add_sub_cancel_left,
    List.take_left' rfl]
  rfl

/-- The unified Response getter over a body with exactly two completed
numbers, each carrying its digit text. -/
theorem unifiedResponse_two (obj n1 n2 : JSVal) (d1 d2 peer sum : String)
    (oid : JSVal)
    (h1 : jsGetPath obj ["OrderResponse", "CompletedNumbers",
       "TelephoneNumber"] = some (JSVal.varr [n1, n2]))
    (h2 : jsGetPath n1 ["FullNumber", "_text"] = some (JSVal.vstr d1))
    (h3 : jsGetPath n2 ["FullNumber", "_text"] = some (JSVal.vstr d2))
    (h4 : jsGetPath obj ["OrderResponse", "Order", "PeerId", "_text"] =
       some (JSVal.vstr peer))
    (h5 : jsGet obj "order_id" = some oid)
    (h6 : jsGetPath obj ["OrderResponse", "Summary", "_text"] =
       some (JSVal.vstr sum)) :
    unifiedResponse obj = some
      { dids := [
          { peerId := JSVal.vstr peer, didId := oid, e164 := "+1" ++ d1,
            countryCodeA3 := "USA", areaCode := parseAreaCode sum },
          { peerId := JSVal.vstr peer, didId := oid, e164 := "+1" ++ d2,
            countryCodeA3 := "USA", areaCode := parseAreaCode sum }],
        resultCount := 2 } := by
  simp [unifiedResponse, h1, h2, h3, h4, h5, h6, mapThrow, jsToString]

/-- C8: a completed check-order body carrying exactly two completed
numbers yields a unified result with resultCount 2 in which every entry
has e164 equal to +1 followed by that number's raw digits and carries
the attached order id, the peer id, the USA country constant and the
area code parsed from the summary; and the parsed area code is exactly
the parenthesized portion of the summary string. -/
theorem c8_unified_example :
    (∀ (obj n1 n2 : JSVal) (d1 d2 peer sum : String) (oid : JSVal),
       jsGetPath obj ["OrderResponse", "CompletedNumbers",
         "TelephoneNumber"] = some (JSVal.varr [n1, n2]) →
       jsGetPath n1 ["FullNumber", "_text"] = some (JSVal.vstr d1) →
       jsGetPath n2 ["FullNumber", "_text"] = some (JSVal.vstr d2) →
       jsGetPath obj ["OrderResponse", "Order", "PeerId", "_text"] =
         some (JSVal.vstr peer) →
       jsGet obj "order_id" = some oid →
       jsGetPath obj ["OrderResponse", "Summary", "_text"] =
         some (JSVal.vstr sum) →
       unifiedResponse obj = some
         { dids := [
             { peerId := JSVal.vstr peer, didId := oid, e164 := "+1" ++ d1,
               countryCodeA3 := "USA", areaCode := parseAreaCode sum },
             { peerId := JSVal.vstr peer, didId := oid, e164 := "+1" ++ d2,
               countryCodeA3 := "USA", areaCode := parseAreaCode sum }],
           resultCount := 2 }) ∧
    (∀ pre ac post : String, '(' ∉ pre.toList → ')' ∉ pre.toList →
       ')' ∉ ac.toList →
       parseAreaCode (pre ++ "(" ++ ac ++ ")" ++ post) = some ac) :=
  ⟨unifiedResponse_two, parseAreaCode_between⟩

/-- C8 witness: the concrete two-number COMPLETE body with summary
area code 212. -/
theorem c8_unified_example_witness :
    unifiedResponse fixtureUnifiedObj = some
      { dids := [
          { peerId := JSVal.vstr "peer-9", didId := JSVal.vstr "ord-1",
            e164 := "+12125550001", countryCodeA3 := "USA",
            areaCode := some "212" },
          { peerId := JSVal.vstr "peer-9", didId := JSVal.vstr "ord-1",
            e164 := "+12125550002", countryCodeA3 := "USA",
            areaCode := some "212" }],
        resultCount := 2 } ∧
    parseAreaCode ("2 numbers in " ++ "(" ++ "212" ++ ")" ++ "") =
      some "212" :=
  ⟨c8_unified_example.1 fixtureUnifiedObj
     (JSVal.vobj [("FullNumber", JSVal.vobj [("_text", JSVal.vstr "2125550001")])])
     (JSVal.vobj [("FullNumber", JSVal.vobj [("_text", JSVal.vstr "2125550002")])])
     "2125550001" "2125550002" "peer-9" "2 numbers in (212)"
     (JSVal.vstr "ord-1") rfl rfl rfl rfl rfl rfl,
   c8_unified_example.2 "2 numbers in " "212" "" (by decide) (by decide)
     (by decide)⟩

end Bandwidth
